import Mathlib

/-!
Verification development for the shadow agent's osquery provisioning module.

The Rust sources (`src/main.rs`, `src/osquery.rs`) are shallowly embedded:
pure data (platform descriptors, host-identifier modes, command assembly)
becomes Lean data; the effectful provisioning pipeline becomes a function
over an explicit environment of step outcomes, returning the result together
with a trace of pipeline events; the filesystem is a map from paths to file
contents.  External libraries (sha2, serde_json, the tar/zip crates) are
modelled at their call boundary: the digest of the downloaded bytes and the
outcomes of the fallible steps are inputs to the pipeline model, and a
write that can fail mid-way is modelled by a fault parameter giving the
number of bytes written before the failure.
-/

namespace Shadow

/-- A filesystem path, as its list of components (models `PathBuf` built by
repeated `join`). -/
abbrev Path := List String

/-- Render a path as a string, for error messages (models `Display`/`Debug`
of `PathBuf`). -/
def renderPath (p : Path) : String := String.intercalate "/" p

/-- `target_os` of the build (the `cfg` blocks in `osquery.rs`). -/
inductive OS
  | linux
  | macos
  | windows
  | otherOS
deriving DecidableEq, Repr

/-- `target_arch` of the build. -/
inductive Arch
  | x86_64
  | aarch64
  | otherArch
deriving DecidableEq, Repr

/-- Rust `str::ends_with`, at the character level (`l₁.isSuffixOf l₂` on the
underlying character lists, so that concrete instances evaluate). -/
def strEndsWith (s suffix : String) : Bool :=
  suffix.data.isSuffixOf s.data

/-- Rust `str::starts_with`, at the character level. -/
def strStartsWith (s pre : String) : Bool :=
  pre.data.isPrefixOf s.data

/-- Drop the first `n` characters of a string. -/
def strDrop (s : String) (n : Nat) : String :=
  String.mk (s.data.drop n)

/-- Drop the last `n` characters of a string. -/
def strDropRight (s : String) (n : Nat) : String :=
  String.mk (s.data.take (s.data.length - n))

/-- Archive type of the platform download (`enum ArchiveType` in
`osquery.rs`). -/
inductive ArchiveType
  | TarGz
  | Pkg
  | Zip
deriving DecidableEq, Repr

/-- Platform-specific download info (`struct PlatformInfo` in
`osquery.rs`). -/
structure PlatformInfo where
  download_filename : String
  sha256 : String
  archive_type : ArchiveType
  binary_path : String
deriving DecidableEq, Repr

/-- `get_platform_info` from `osquery.rs`: the compile-time `cfg` dispatch is
embedded as a function of the target OS and architecture.  The macOS and
Windows blocks are not architecture-constrained in the source; every
combination not covered by a `cfg` block bails with "Unsupported platform". -/
def get_platform_info : OS → Arch → Except String PlatformInfo
  | OS.linux, Arch.x86_64 =>
      Except.ok ⟨"osquery-5.20.0_1.linux_x86_64.tar.gz",
        "4f0e4e23c864a72dcb20bf4661ea0d2719358c938ec342105a633cc732dc03c3",
        ArchiveType.TarGz, "opt/osquery/bin/osqueryd"⟩
  | OS.linux, Arch.aarch64 =>
      Except.ok ⟨"osquery-5.20.0_1.linux_aarch64.tar.gz",
        "cb8d942943c765ebd87c5a3b01fc09988c8ad31acf094207fc49e7acf88ec573",
        ArchiveType.TarGz, "opt/osquery/bin/osqueryd"⟩
  | OS.linux, Arch.otherArch => Except.error "Unsupported platform"
  | OS.macos, _ =>
      Except.ok ⟨"osquery-5.20.0.pkg",
        "569751a8bc4fdd3aba94071a4b840003066b2cff8e1b0ef9abf46c7a482173c0",
        ArchiveType.Pkg, "opt/osquery/lib/osquery.app/Contents/MacOS/osqueryd"⟩
  | OS.windows, _ =>
      Except.ok ⟨"osquery-5.20.0.windows_x86_64.zip",
        "af66cb90537c52459539141f183ae8abb3073f29089b5d1f68245381d80967e1",
        ArchiveType.Zip, "osqueryd/osqueryd.exe"⟩
  | OS.otherOS, _ => Except.error "Unsupported platform"

/-- Host identifier mode (`enum HostIdentifier` in `osquery.rs`). -/
inductive HostIdentifier
  | Uuid
  | Instance
deriving DecidableEq, Repr

/-- `HostIdentifier::as_osquery_arg` from `osquery.rs`. -/
def HostIdentifier.as_osquery_arg : HostIdentifier → String
  | HostIdentifier.Uuid => "uuid"
  | HostIdentifier.Instance => "instance"

/-- The `fmt::Display` impl for `HostIdentifier` in `osquery.rs` (also the
clap `ValueEnum` rendering of the mode). -/
def HostIdentifier.display : HostIdentifier → String
  | HostIdentifier.Uuid => "uuid"
  | HostIdentifier.Instance => "instance"

/-- The query string and JSON field selected by `get_host_identifier` in
`osquery.rs` for each mode. -/
def get_host_identifier_query : HostIdentifier → String × String
  | HostIdentifier.Uuid => ("SELECT uuid FROM system_info;", "uuid")
  | HostIdentifier.Instance => ("SELECT instance_id FROM osquery_info;", "instance_id")

/-- `struct OsqueryProvisioner` from `osquery.rs`. -/
structure OsqueryProvisioner where
  data_dir : Path
  skip_verify : Bool
deriving DecidableEq, Repr

/-- `OsqueryProvisioner::new`. -/
def OsqueryProvisioner.new (data_dir : Path) : OsqueryProvisioner :=
  ⟨data_dir, false⟩

/-- `OsqueryProvisioner::skip_verification`. -/
def OsqueryProvisioner.skip_verification (p : OsqueryProvisioner) (skip : Bool) :
    OsqueryProvisioner :=
  ⟨p.data_dir, skip⟩

/-- `OsqueryProvisioner::osqueryd_path`: the install path, chosen by the
`target_os` `cfg` blocks. -/
def OsqueryProvisioner.osqueryd_path (p : OsqueryProvisioner) (os : OS) : Path :=
  match os with
  | OS.windows => p.data_dir ++ ["bin", "osqueryd.exe"]
  | OS.macos => p.data_dir ++ ["bin", "osquery.app", "Contents", "MacOS", "osqueryd"]
  | _ => p.data_dir ++ ["bin", "osqueryd"]

/-- The filesystem facts `is_provisioned` consults: `Path::exists` and the
permission mode returned by `std::fs::metadata` (none when `metadata`
fails). -/
structure FSView where
  pathExists : Path → Bool
  fileMode : Path → Option Nat

/-- `OsqueryProvisioner::is_provisioned` from `osquery.rs`: the path must
exist, and on Unix (`cfg(unix)`) `metadata` must succeed and the mode must
have at least one of the `0o111` bits set; on non-Unix existence alone
suffices. -/
def OsqueryProvisioner.is_provisioned (p : OsqueryProvisioner) (os : OS)
    (isUnix : Bool) (fs : FSView) : Bool :=
  let path := p.osqueryd_path os
  if !fs.pathExists path then false
  else if isUnix then
    match fs.fileMode path with
    | some mode => mode &&& 0o111 != 0
    | none => false
  else true

/-- `verify_hash` from `osquery.rs`, at the boundary of the external sha2
crate: `fileDigest` stands for the lowercase-hex SHA-256 of the file's
bytes, compared against the expected value; on mismatch the error carries
both strings. -/
def verify_hash (fileDigest expected : String) : Except String Unit :=
  if fileDigest ≠ expected then
    Except.error ("Hash mismatch!\n  Expected: " ++ expected ++ "\n  Got: " ++ fileDigest)
  else Except.ok ()

/-- Observable events of the provisioning pipeline, in the order
`download_and_extract` performs them. -/
inductive Ev
  | download
  | verifyHash
  | extract (t : ArchiveType)
  | removeTempFile
  | removeTempDir
deriving DecidableEq, Repr

/-- Outcomes of the effectful steps of `download_and_extract`, given as
inputs to the pipeline model: results of `create_dir_all` for `tmp/` and
`bin/`, of `download_file`, the SHA-256 hex digest of the downloaded bytes,
the extraction result, the (discarded) results of `remove_file`/`remove_dir`,
whether the binary exists at the install path afterwards, and the result of
the Unix permission fix. -/
structure RunEnv where
  createTempDirOk : Except String Unit
  downloadResult : Except String Unit
  fileDigest : String
  createBinDirOk : Except String Unit
  extractResult : Except String Unit
  removeFileOk : Bool
  removeDirOk : Bool
  binaryExists : Bool
  chmodOk : Except String Unit

/-- The tail of `download_and_extract` after hash verification: create the
`bin/` directory, run the extraction strategy for the platform's archive
type, discard the results of removing the temp file and temp directory
(`let _ = ...` in the source), bail if the binary is still missing, and on
Unix set the permissions to `0o755`. -/
def extract_phase (info : PlatformInfo) (isUnix : Bool) (env : RunEnv)
    (tr : List Ev) : Except String Unit × List Ev :=
  match env.createBinDirOk with
  | Except.error e => (Except.error e, tr)
  | Except.ok _ =>
    match env.extractResult with
    | Except.error e => (Except.error e, tr ++ [Ev.extract info.archive_type])
    | Except.ok _ =>
      let tr2 := tr ++ [Ev.extract info.archive_type, Ev.removeTempFile, Ev.removeTempDir]
      if env.binaryExists then
        if isUnix then
          match env.chmodOk with
          | Except.error e => (Except.error e, tr2)
          | Except.ok _ => (Except.ok (), tr2)
        else (Except.ok (), tr2)
      else (Except.error "Failed to extract osqueryd binary", tr2)

/-- `OsqueryProvisioner::download_and_extract` from `osquery.rs` as a
trace-producing function over the step outcomes in `RunEnv`: resolve the
platform, create the temp dir, download, verify the checksum unless
`skip_verify` is set, then extract and finalize.  Each fallible step
propagates its error immediately (`?` in the source). -/
def download_and_extract (p : OsqueryProvisioner) (os : OS) (arch : Arch)
    (isUnix : Bool) (env : RunEnv) : Except String Unit × List Ev :=
  match get_platform_info os arch with
  | Except.error e => (Except.error e, [])
  | Except.ok info =>
    match env.createTempDirOk with
    | Except.error e => (Except.error e, [])
    | Except.ok _ =>
      match env.downloadResult with
      | Except.error e => (Except.error e, [Ev.download])
      | Except.ok _ =>
        if p.skip_verify then extract_phase info isUnix env [Ev.download]
        else
          match verify_hash env.fileDigest info.sha256 with
          | Except.error e => (Except.error e, [Ev.download, Ev.verifyHash])
          | Except.ok _ => extract_phase info isUnix env [Ev.download, Ev.verifyHash]

/-- `OsqueryProvisioner::ensure_provisioned` from `osquery.rs`: if already
provisioned, return the install path with no pipeline work; otherwise run
`download_and_extract` and return the install path on success. -/
def ensure_provisioned (p : OsqueryProvisioner) (os : OS) (arch : Arch)
    (isUnix : Bool) (fs : FSView) (env : RunEnv) : Except String Path × List Ev :=
  if p.is_provisioned os isUnix fs then (Except.ok (p.osqueryd_path os), [])
  else
    match download_and_extract p os arch isUnix env with
    | (Except.error e, tr) => (Except.error e, tr)
    | (Except.ok _, tr) => (Except.ok (p.osqueryd_path os), tr)

/-- A filesystem as a map from paths to file contents (bytes as `Nat`). -/
def FileSys := Path → Option (List Nat)

/-- The empty filesystem. -/
def FileSys.empty : FileSys := fun _ => none

/-- Write a file. -/
def FileSys.update (fs : FileSys) (q : Path) (c : List Nat) : FileSys :=
  fun r => if r = q then some c else fs r

/-- Remove a file or directory tree (`remove_dir_all`). -/
def FileSys.remove (fs : FileSys) (q : Path) : FileSys :=
  fun r => if r = q then none else fs r

/-- An entry of the tar archive: its path string and its contents. -/
structure TarEntry where
  path : String
  content : List Nat
deriving DecidableEq, Repr

/-- The selection test of `extract_tar_gz`: the entry path ends with
"osqueryd", or equals the descriptor's in-archive binary path. -/
def tarMatch (binary_path : String) (e : TarEntry) : Bool :=
  strEndsWith e.path "osqueryd" || e.path == binary_path

/-- Models a direct write to `dest` by the external tar/zip/cp machinery:
with `fault = none` the whole content lands at `dest`; with
`fault = some k` an I/O failure is injected after `k` bytes, leaving the
first `k` bytes at `dest` and returning the error.  This is the call
boundary of `tar::Entry::unpack`, `std::io::copy` and `cp -R`, which all
write straight at the destination path. -/
def writeWithFault (fs : FileSys) (dest : Path) (content : List Nat) :
    Option Nat → FileSys × Except String Unit
  | none => (fs.update dest content, Except.ok ())
  | some k => (fs.update dest (content.take k), Except.error "io error while unpacking")

/-- `OsqueryProvisioner::extract_tar_gz` from `osquery.rs`: walk the tar
entries in order; at the first entry whose path ends with "osqueryd" or
equals `binary_path`, unpack it directly at `dest_dir/osqueryd` and stop;
if no entry matches, fail with "osqueryd not found in archive". -/
def extract_tar_gz (fs : FileSys) (dest_dir : Path) (binary_path : String)
    (fault : Option Nat) : List TarEntry → FileSys × Except String Unit
  | [] => (fs, Except.error "osqueryd not found in archive")
  | e :: rest =>
    if tarMatch binary_path e then
      writeWithFault fs (dest_dir ++ ["osqueryd"]) e.content fault
    else extract_tar_gz fs dest_dir binary_path fault rest

/-- An entry of the zip archive. -/
structure ZipEntry where
  name : String
  content : List Nat
deriving DecidableEq, Repr

/-- The selection test of `extract_zip`: the entry name ends with
"osqueryd.exe", or equals the descriptor's in-archive binary path. -/
def zipMatch (binary_path : String) (e : ZipEntry) : Bool :=
  strEndsWith e.name "osqueryd.exe" || e.name == binary_path

/-- `OsqueryProvisioner::extract_zip` from `osquery.rs`: iterate entries by
index; at the first whose name ends with "osqueryd.exe" or equals
`binary_path`, create `dest_dir/osqueryd.exe` and stream-copy into it;
if no entry matches, fail with "osqueryd.exe not found in archive". -/
def extract_zip (fs : FileSys) (dest_dir : Path) (binary_path : String)
    (fault : Option Nat) : List ZipEntry → FileSys × Except String Unit
  | [] => (fs, Except.error "osqueryd.exe not found in archive")
  | e :: rest =>
    if zipMatch binary_path e then
      writeWithFault fs (dest_dir ++ ["osqueryd.exe"]) e.content fault
    else extract_zip fs dest_dir binary_path fault rest

/-- Outcomes of the external steps of `extract_pkg`: whether `pkgutil
--expand-full` succeeded, whether the expected `osquery.app` exists in the
expansion tree, the bundle's bytes (the bundle directory modelled as one
blob), and a fault point for the `cp -R` copy. -/
structure PkgRun where
  pkgutilOk : Bool
  srcAppPresent : Bool
  bundleBytes : List Nat
  cpFault : Option Nat

/-- `OsqueryProvisioner::extract_pkg` from `osquery.rs`: expand the pkg via
`pkgutil` (failing if it exits non-zero), fail if the bundle is absent from
the expansion tree, then remove any existing `dest_dir/osquery.app` and
copy the bundle there with `cp -R`. -/
def extract_pkg (fs : FileSys) (dest_dir : Path) (run : PkgRun) :
    FileSys × Except String Unit :=
  if !run.pkgutilOk then (fs, Except.error "pkgutil failed")
  else if !run.srcAppPresent then
    (fs, Except.error "Could not find osquery.app in pkg")
  else
    let fs1 := fs.remove (dest_dir ++ ["osquery.app"])
    writeWithFault fs1 (dest_dir ++ ["osquery.app"]) run.bundleBytes run.cpFault

/-- `ENROLL_SECRET_ENV` from `main.rs`. -/
def ENROLL_SECRET_ENV : String := "OSQUERY_ENROLL_SECRET"

/-- The enrollment URL built in `main.rs`:
`format!("https://\x7b\x7d/api/shadow/enroll", args.server)`. -/
def enroll_url (server : String) : String :=
  "https://" ++ server ++ "/api/shadow/enroll"

/-- The JSON body map built in `main.rs`: exactly the two insertions
`host_id` and `org_token`. -/
def enroll_body (host_id org_token : String) : List (String × String) :=
  [("host_id", host_id), ("org_token", org_token)]

/-- The request `main.rs` sends to the enrollment endpoint: its URL and its
JSON body, as key/value pairs. -/
def enroll_request (server host_id org_token : String) :
    String × List (String × String) :=
  (enroll_url server, enroll_body host_id org_token)

/-- An HTTP response as observed by `main.rs`: numeric status and body
text. -/
structure HttpResponse where
  status : Nat
  body : String
deriving DecidableEq, Repr

/-- `StatusCode::is_success` of reqwest: the 2xx range. -/
def statusIsSuccess (s : Nat) : Bool := 200 ≤ s && s < 300

/-- The serde_json deserialization of `EnrollResponse` at its call boundary,
on bodies of the canonical shape `\x7b"enroll_secret":"<value>"\x7d`:
returns the secret string, or none when the body does not parse. -/
def parseEnrollSecret (body : String) : Option String :=
  let pre := "\x7b\"enroll_secret\":\""
  let suf := "\"\x7d"
  if strStartsWith body pre && strEndsWith body suf &&
      pre.length + suf.length ≤ body.length then
    some (strDropRight (strDrop body pre.length) suf.length)
  else none

/-- The response handling of the enrollment exchange in `main.rs`: a
non-2xx status bails with "Enrollment failed (<status>): <body>"; a 2xx
response is parsed as `EnrollResponse` and its `enroll_secret` field is
returned. -/
def enroll_response (resp : HttpResponse) : Except String String :=
  if !statusIsSuccess resp.status then
    Except.error ("Enrollment failed (" ++ toString resp.status ++ "): " ++ resp.body)
  else
    match parseEnrollSecret resp.body with
    | some s => Except.ok s
    | none => Except.error "Failed to parse enrollment response"

/-- The inputs of the osqueryd command assembly in `main.rs` (besides the
enrollment secret): server, optional CA certificate path, data directory,
distributed interval, verbose flag, and host-identifier mode. -/
structure LaunchArgs where
  server : String
  ca_cert : Option Path
  data_dir : Path
  distributed_interval : Nat
  verbose : Bool
  host_identifier : HostIdentifier

/-- The osqueryd command assembled by `main.rs` (lines 190-238): the
argument list and the process environment.  `defaultCaCerts` is
`get_ca_certs_path()` for the platform and `defaultCaExists` the result of
its existence check.  The enrollment secret enters only the environment,
via `cmd.env(ENROLL_SECRET_ENV, ...)`. -/
def build_osqueryd_cmd (a : LaunchArgs) (defaultCaCerts : String)
    (defaultCaExists : Bool) (enroll_secret : String) :
    List String × List (String × String) :=
  let log_path := a.data_dir ++ ["osquery_logs"]
  let base := ["--config_plugin", "tls", "--tls_hostname", a.server]
  let caArgs :=
    match a.ca_cert with
    | some ca => ["--tls_server_certs", renderPath ca]
    | none =>
      if defaultCaCerts ≠ "" && defaultCaExists then
        ["--tls_server_certs", defaultCaCerts]
      else []
  let enrollArgs := ["--enroll_tls_endpoint", "/api/osquery/enroll",
                     "--config_tls_endpoint", "/api/osquery/config",
                     "--enroll_secret_env", ENROLL_SECRET_ENV]
  let logArgs := ["--logger_plugin", "tls",
                  "--logger_tls_endpoint", "/api/osquery/log"]
  let distArgs := ["--disable_distributed", "false",
                   "--distributed_plugin", "tls",
                   "--distributed_interval", toString a.distributed_interval,
                   "--distributed_tls_max_attempts", "10",
                   "--distributed_tls_read_endpoint", "/api/osquery/distributed/read",
                   "--distributed_tls_write_endpoint", "/api/osquery/distributed/write"]
  let pathArgs := ["--pidfile", renderPath (a.data_dir ++ ["osquery.pid"]),
                   "--logger_path", renderPath log_path,
                   "--database_path", renderPath (a.data_dir ++ ["osquery.db"])]
  let hostArgs := ["--host_identifier", a.host_identifier.as_osquery_arg]
  let verboseArgs :=
    if a.verbose then ["--verbose", "true", "--logger_stderr", "true"] else []
  (base ++ caArgs ++ enrollArgs ++ logArgs ++ distArgs ++ pathArgs ++
     hostArgs ++ verboseArgs,
   [(ENROLL_SECRET_ENV, enroll_secret)])

/-- The osqueryd-path resolution in `main.rs` (lines 122-137): a
user-provided path is checked for existence and used as-is (the
provisioner is never constructed); with no user path, the auto-provisioning
pipeline runs. -/
def resolve_osqueryd_path (user : Option Path) (fsExists : Path → Bool)
    (p : OsqueryProvisioner) (os : OS) (arch : Arch) (isUnix : Bool)
    (fs : FSView) (env : RunEnv) : Except String Path × List Ev :=
  match user with
  | some path =>
    if !fsExists path then
      (Except.error ("osqueryd not found at " ++ renderPath path), [])
    else (Except.ok path, [])
  | none => ensure_provisioned p os arch isUnix fs env

/-! ## Theorems -/

instance {α β : Type} [DecidableEq α] [DecidableEq β] : DecidableEq (Except α β) := fun a b =>
  match a, b with
  | Except.ok x, Except.ok y =>
    if h : x = y then Decidable.isTrue (by rw [h]) else Decidable.isFalse (by simp [h])
  | Except.ok _, Except.error _ => Decidable.isFalse (by simp)
  | Except.error _, Except.ok _ => Decidable.isFalse (by simp)
  | Except.error x, Except.error y =>
    if h : x = y then Decidable.isTrue (by rw [h]) else Decidable.isFalse (by simp [h])

/-- The tar walk unpacks the first matching entry (characterization through
`List.find?`). -/
theorem extract_tar_gz_eq_find (fs : FileSys) (d : Path) (bp : String)
    (entries : List TarEntry) :
    extract_tar_gz fs d bp none entries =
      match entries.find? (tarMatch bp) with
      | some e => (fs.update (d ++ ["osqueryd"]) e.content, Except.ok ())
      | none => (fs, Except.error "osqueryd not found in archive") := by
  induction entries with
  | nil => rfl
  | cons e rest ih =>
    cases h : tarMatch bp e
    · simp [extract_tar_gz, List.find?, h, ih]
    · simp [extract_tar_gz, List.find?, h, writeWithFault]

/-- The zip walk stream-copies the first matching entry. -/
theorem extract_zip_eq_find (fs : FileSys) (d : Path) (bp : String)
    (entries : List ZipEntry) :
    extract_zip fs d bp none entries =
      match entries.find? (zipMatch bp) with
      | some e => (fs.update (d ++ ["osqueryd.exe"]) e.content, Except.ok ())
      | none => (fs, Except.error "osqueryd.exe not found in archive") := by
  induction entries with
  | nil => rfl
  | cons e rest ih =>
    cases h : zipMatch bp e
    · simp [extract_zip, List.find?, h, ih]
    · simp [extract_zip, List.find?, h, writeWithFault]

/-- Tar extraction touches no path other than `dest_dir/osqueryd`. -/
theorem extract_tar_gz_frame (fs : FileSys) (d : Path) (bp : String)
    (fault : Option Nat) (entries : List TarEntry) (q : Path)
    (hq : q ≠ d ++ ["osqueryd"]) :
    (extract_tar_gz fs d bp fault entries).1 q = fs q := by
  induction entries with
  | nil => rfl
  | cons e rest ih =>
    cases h : tarMatch bp e
    · simpa [extract_tar_gz, h] using ih
    · cases fault with
      | none => simp [extract_tar_gz, h, writeWithFault, FileSys.update, hq]
      | some k => simp [extract_tar_gz, h, writeWithFault, FileSys.update, hq]

/-- Zip extraction touches no path other than `dest_dir/osqueryd.exe`. -/
theorem extract_zip_frame (fs : FileSys) (d : Path) (bp : String)
    (fault : Option Nat) (entries : List ZipEntry) (q : Path)
    (hq : q ≠ d ++ ["osqueryd.exe"]) :
    (extract_zip fs d bp fault entries).1 q = fs q := by
  induction entries with
  | nil => rfl
  | cons e rest ih =>
    cases h : zipMatch bp e
    · simpa [extract_zip, h] using ih
    · cases fault with
      | none => simp [extract_zip, h, writeWithFault, FileSys.update, hq]
      | some k => simp [extract_zip, h, writeWithFault, FileSys.update, hq]

/-- Pkg extraction touches no path other than `dest_dir/osquery.app`. -/
theorem extract_pkg_frame (fs : FileSys) (d : Path) (run : PkgRun) (q : Path)
    (hq : q ≠ d ++ ["osquery.app"]) :
    (extract_pkg fs d run).1 q = fs q := by
  cases hpk : run.pkgutilOk
  · simp [extract_pkg, hpk]
  · cases hsrc : run.srcAppPresent
    · simp [extract_pkg, hpk, hsrc]
    · cases hcp : run.cpFault with
      | none =>
        simp [extract_pkg, hpk, hsrc, hcp, writeWithFault, FileSys.update,
          FileSys.remove, hq]
      | some k =>
        simp [extract_pkg, hpk, hsrc, hcp, writeWithFault, FileSys.update,
          FileSys.remove, hq]

/-- C5: for every tar+gzip archive, the extractor walks entries in order and
unpacks exactly the first entry whose path ends with the binary's filename
("osqueryd") or exactly equals the descriptor's in-archive binary path, and
fails with "osqueryd not found in archive" if the walk completes without a
match; in particular, for an archive containing both
`opt/osquery/bin/osqueryd` and a man page ending in `osqueryd.1` (in either
order), it selects the former and never the latter. -/
theorem c5_tar_first_match :
    (∀ (fs : FileSys) (d : Path) (bp : String) (entries : List TarEntry),
       extract_tar_gz fs d bp none entries =
         match entries.find? (tarMatch bp) with
         | some e => (fs.update (d ++ ["osqueryd"]) e.content, Except.ok ())
         | none => (fs, Except.error "osqueryd not found in archive")) ∧
    (extract_tar_gz FileSys.empty ["bin"] "opt/osquery/bin/osqueryd" none
       [⟨"usr/share/man/man1/osqueryd.1", [1]⟩,
        ⟨"opt/osquery/bin/osqueryd", [2]⟩]).1 ["bin", "osqueryd"] = some [2] ∧
    (extract_tar_gz FileSys.empty ["bin"] "opt/osquery/bin/osqueryd" none
       [⟨"usr/share/man/man1/osqueryd.1", [1]⟩,
        ⟨"opt/osquery/bin/osqueryd", [2]⟩]).2 = Except.ok () ∧
    (extract_tar_gz FileSys.empty ["bin"] "opt/osquery/bin/osqueryd" none
       [⟨"opt/osquery/bin/osqueryd", [2]⟩,
        ⟨"usr/share/man/man1/osqueryd.1", [1]⟩]).1 ["bin", "osqueryd"] = some [2] ∧
    (extract_tar_gz FileSys.empty ["bin"] "opt/osquery/bin/osqueryd" none
       [⟨"usr/share/man/man1/osqueryd.1", [1]⟩]).2 =
      Except.error "osqueryd not found in archive" := by
  refine ⟨extract_tar_gz_eq_find, ?_, ?_, ?_, ?_⟩ <;> decide

/-- C7: the argument list of the assembled osqueryd command does not depend
on the enrollment secret; the secret enters the launched process only
through the `OSQUERY_ENROLL_SECRET` environment variable. -/
theorem c7_secret_never_in_argv (a : LaunchArgs) (ca : String) (caEx : Bool)
    (s1 s2 : String) :
    (build_osqueryd_cmd a ca caEx s1).1 = (build_osqueryd_cmd a ca caEx s2).1 ∧
    (build_osqueryd_cmd a ca caEx s1).2 = [(ENROLL_SECRET_ENV, s1)] := by
  exact ⟨rfl, rfl⟩

/-- C8: for both host-identifier modes, the textual rendering of the mode
that selects the identifier query in `get_host_identifier` and the value of
the `--host_identifier` argument of the launched command are identical: both
the query selection and the launch argument are driven by the same
`HostIdentifier` value, whose display string equals `as_osquery_arg`, and
the assembled argument list contains the adjacent pair
`--host_identifier <as_osquery_arg m>`. -/
theorem c8_host_identifier_consistency (m : HostIdentifier) :
    HostIdentifier.display m = m.as_osquery_arg ∧
    get_host_identifier_query m =
      (match m with
       | HostIdentifier.Uuid => ("SELECT uuid FROM system_info;", "uuid")
       | HostIdentifier.Instance =>
           ("SELECT instance_id FROM osquery_info;", "instance_id")) ∧
    (∀ (server : String) (cac : Option Path) (dd : Path) (di : Nat) (v : Bool)
       (ca : String) (caEx : Bool) (s : String),
       List.IsInfix ["--host_identifier", m.as_osquery_arg]
         (build_osqueryd_cmd ⟨server, cac, dd, di, v, m⟩ ca caEx s).1) := by
  refine ⟨by cases m <;> rfl, by cases m <;> rfl, ?_⟩
  intro server cac dd di v ca caEx s
  refine ⟨["--config_plugin", "tls", "--tls_hostname", server] ++
      (match cac with
       | some c => ["--tls_server_certs", renderPath c]
       | none => if ca ≠ "" && caEx then ["--tls_server_certs", ca] else []) ++
      ["--enroll_tls_endpoint", "/api/osquery/enroll",
       "--config_tls_endpoint", "/api/osquery/config",
       "--enroll_secret_env", ENROLL_SECRET_ENV] ++
      ["--logger_plugin", "tls", "--logger_tls_endpoint", "/api/osquery/log"] ++
      ["--disable_distributed", "false", "--distributed_plugin", "tls",
       "--distributed_interval", toString di,
       "--distributed_tls_max_attempts", "10",
       "--distributed_tls_read_endpoint", "/api/osquery/distributed/read",
       "--distributed_tls_write_endpoint", "/api/osquery/distributed/write"] ++
      ["--pidfile", renderPath (dd ++ ["osquery.pid"]),
       "--logger_path", renderPath (dd ++ ["osquery_logs"]),
       "--database_path", renderPath (dd ++ ["osquery.db"])],
    (if v then ["--verbose", "true", "--logger_stderr", "true"] else []), ?_⟩
  simp [build_osqueryd_cmd]

/-- C10: the final install path is a pure function of the data directory and
the operating system (in particular independent of `skip_verify`); both the
cached branch and the freshly-provisioned branch of `ensure_provisioned`
return exactly that path on success; and each extraction strategy writes
only at its fixed destination name under the destination directory
(`osqueryd`, `osqueryd.exe`, or the `osquery.app` bundle), regardless of the
matched entry's path inside the archive. -/
theorem c10_install_path_fixed :
    (∀ (dd : Path) (sv1 sv2 : Bool) (os : OS),
       OsqueryProvisioner.osqueryd_path ⟨dd, sv1⟩ os =
         OsqueryProvisioner.osqueryd_path ⟨dd, sv2⟩ os) ∧
    (∀ (dd : Path) (sv : Bool) (os : OS),
       OsqueryProvisioner.osqueryd_path ⟨dd, sv⟩ os =
         match os with
         | OS.windows => dd ++ ["bin", "osqueryd.exe"]
         | OS.macos => dd ++ ["bin", "osquery.app", "Contents", "MacOS", "osqueryd"]
         | _ => dd ++ ["bin", "osqueryd"]) ∧
    (∀ (p : OsqueryProvisioner) (os : OS) (arch : Arch) (isUnix : Bool)
       (fs : FSView) (env : RunEnv),
       (ensure_provisioned p os arch isUnix fs env).1 =
           Except.ok (p.osqueryd_path os) ∨
         ∃ e, (ensure_provisioned p os arch isUnix fs env).1 = Except.error e) ∧
    (∀ (fs : FileSys) (d : Path) (bp : String) (fault : Option Nat)
       (entries : List TarEntry) (q : Path),
       (extract_tar_gz fs d bp fault entries).1 q = fs q ∨ q = d ++ ["osqueryd"]) ∧
    (∀ (fs : FileSys) (d : Path) (bp : String) (fault : Option Nat)
       (entries : List ZipEntry) (q : Path),
       (extract_zip fs d bp fault entries).1 q = fs q ∨ q = d ++ ["osqueryd.exe"]) ∧
    (∀ (fs : FileSys) (d : Path) (run : PkgRun) (q : Path),
       (extract_pkg fs d run).1 q = fs q ∨ q = d ++ ["osquery.app"]) := by
  refine ⟨fun dd sv1 sv2 os => by cases os <;> rfl,
    fun dd sv os => by cases os <;> rfl, ?_, ?_, ?_, ?_⟩
  · intro p os arch isUnix fs env
    by_cases hp : p.is_provisioned os isUnix fs
    · left; simp [ensure_provisioned, hp]
    · rcases hr : download_and_extract p os arch isUnix env with ⟨r, tr⟩
      cases r with
      | error e => right; exact ⟨e, by simp [ensure_provisioned, hp, hr]⟩
      | ok u => left; simp [ensure_provisioned, hp, hr]
  · intro fs d bp fault entries q
    by_cases hq : q = d ++ ["osqueryd"]
    · right; exact hq
    · left; exact extract_tar_gz_frame fs d bp fault entries q hq
  · intro fs d bp fault entries q
    by_cases hq : q = d ++ ["osqueryd.exe"]
    · right; exact hq
    · left; exact extract_zip_frame fs d bp fault entries q hq
  · intro fs d run q
    by_cases hq : q = d ++ ["osquery.app"]
    · right; exact hq
    · left; exact extract_pkg_frame fs d run q hq

/-- C1 counterexample: the claim "a failed extraction leaves the destination
directory untouched" is false at a concrete input: a tar archive whose only
entry is the binary, with an I/O fault injected after one byte, makes
`extract_tar_gz` fail while a one-byte file now sits at the final install
path `data/bin/osqueryd`, where no file existed before. -/
theorem c1_counterexample :
    (extract_tar_gz FileSys.empty ["data", "bin"] "opt/osquery/bin/osqueryd" (some 1)
        [⟨"opt/osquery/bin/osqueryd", [7, 8, 9]⟩]).2 =
      Except.error "io error while unpacking" ∧
    (extract_tar_gz FileSys.empty ["data", "bin"] "opt/osquery/bin/osqueryd" (some 1)
        [⟨"opt/osquery/bin/osqueryd", [7, 8, 9]⟩]).1 ["data", "bin", "osqueryd"] =
      some [7] ∧
    FileSys.empty ["data", "bin", "osqueryd"] = none := by
  exact ⟨by decide, by decide, rfl⟩

/-- C1 (amended): the extraction strategies write directly at the final
install path with no temporary name or rename: on a mid-write failure the
tar strategy leaves the written prefix of the matched entry at
`dest/osqueryd`, the zip strategy leaves it at `dest/osqueryd.exe`, and the
pkg strategy first removes any existing `dest/osquery.app` bundle and a
failed copy leaves a partially copied bundle there. -/
theorem c1_failed_extraction_leaves_partial_file (fs : FileSys) (d : Path)
    (bp : String) (k : Nat) :
    (∀ (e : TarEntry) (rest : List TarEntry), tarMatch bp e = true →
       extract_tar_gz fs d bp (some k) (e :: rest) =
         (fs.update (d ++ ["osqueryd"]) (e.content.take k),
          Except.error "io error while unpacking")) ∧
    (∀ (e : ZipEntry) (rest : List ZipEntry), zipMatch bp e = true →
       extract_zip fs d bp (some k) (e :: rest) =
         (fs.update (d ++ ["osqueryd.exe"]) (e.content.take k),
          Except.error "io error while unpacking")) ∧
    (∀ (bytes : List Nat),
       extract_pkg fs d ⟨true, true, bytes, some k⟩ =
         ((fs.remove (d ++ ["osquery.app"])).update (d ++ ["osquery.app"])
            (bytes.take k),
          Except.error "io error while unpacking")) := by
  refine ⟨?_, ?_, ?_⟩
  · intro e rest h; simp [extract_tar_gz, h, writeWithFault]
  · intro e rest h; simp [extract_zip, h, writeWithFault]
  · intro bytes; simp [extract_pkg, writeWithFault]

/-- Witness for the amended C1 theorem at a concrete archive and fault. -/
theorem c1_failed_extraction_witness :
    tarMatch "opt/osquery/bin/osqueryd" ⟨"opt/osquery/bin/osqueryd", [7, 8, 9]⟩ = true ∧
    extract_tar_gz FileSys.empty ["data", "bin"] "opt/osquery/bin/osqueryd" (some 1)
        [⟨"opt/osquery/bin/osqueryd", [7, 8, 9]⟩] =
      (FileSys.empty.update (["data", "bin"] ++ ["osqueryd"]) ([7, 8, 9].take 1),
       Except.error "io error while unpacking") :=
  ⟨by decide,
   (c1_failed_extraction_leaves_partial_file FileSys.empty ["data", "bin"]
       "opt/osquery/bin/osqueryd" 1).1
     ⟨"opt/osquery/bin/osqueryd", [7, 8, 9]⟩ [] (by decide)⟩

/-- C2 counterexample: the claim "on every pipeline failure cleanup of the
temporary artifacts is attempted before the error is returned" is false at
a concrete input: when the download fails, `download_and_extract` returns
the download error immediately and neither `remove_file` nor `remove_dir`
is attempted. -/
theorem c2_counterexample :
    (download_and_extract ⟨["d"], false⟩ OS.linux Arch.x86_64 true
        ⟨Except.ok (), Except.error "Download failed with status: 500", "",
         Except.ok (), Except.ok (), true, true, true, Except.ok ()⟩).1 =
      Except.error "Download failed with status: 500" ∧
    Ev.removeTempFile ∉ (download_and_extract ⟨["d"], false⟩ OS.linux Arch.x86_64 true
        ⟨Except.ok (), Except.error "Download failed with status: 500", "",
         Except.ok (), Except.ok (), true, true, true, Except.ok ()⟩).2 ∧
    Ev.removeTempDir ∉ (download_and_extract ⟨["d"], false⟩ OS.linux Arch.x86_64 true
        ⟨Except.ok (), Except.error "Download failed with status: 500", "",
         Except.ok (), Except.ok (), true, true, true, Except.ok ()⟩).2 := by
  exact ⟨by decide, by decide, by decide⟩

/-- If either cleanup event occurs in the tail phase, both directory
creation and extraction succeeded (the trace before the phase never
contains cleanup events). -/
theorem extract_phase_cleanup_mem (info : PlatformInfo) (isUnix : Bool)
    (env : RunEnv) (tr : List Ev)
    (htr1 : Ev.removeTempFile ∉ tr) (htr2 : Ev.removeTempDir ∉ tr)
    (h : Ev.removeTempFile ∈ (extract_phase info isUnix env tr).2 ∨
         Ev.removeTempDir ∈ (extract_phase info isUnix env tr).2) :
    env.createBinDirOk = Except.ok () ∧ env.extractResult = Except.ok () := by
  cases hc : env.createBinDirOk with
  | error e => simp [extract_phase, hc] at h; tauto
  | ok u =>
    cases u
    cases he : env.extractResult with
    | error e => simp [extract_phase, hc, he] at h; tauto
    | ok u2 => cases u2; exact ⟨rfl, rfl⟩

/-- C2 (amended): cleanup of the temporary download file and temporary
directory is attempted only on the success path, after extraction has
succeeded; a failure of the download, the checksum verification, or the
extraction is returned immediately with no cleanup attempt; and the
(discarded) cleanup outcomes never influence the pipeline's result. -/
theorem c2_cleanup_only_on_success (p : OsqueryProvisioner) (os : OS)
    (arch : Arch) (isUnix : Bool) (ctd dl : Except String Unit) (dg : String)
    (cbd ex : Except String Unit) (b1 b2 : Bool) (be : Bool)
    (ch : Except String Unit)
    (h : Ev.removeTempFile ∈ (download_and_extract p os arch isUnix
           ⟨ctd, dl, dg, cbd, ex, b1, b2, be, ch⟩).2 ∨
         Ev.removeTempDir ∈ (download_and_extract p os arch isUnix
           ⟨ctd, dl, dg, cbd, ex, b1, b2, be, ch⟩).2) :
    dl = Except.ok () ∧ cbd = Except.ok () ∧ ex = Except.ok () ∧
    ∀ (b1a b2a : Bool),
      download_and_extract p os arch isUnix ⟨ctd, dl, dg, cbd, ex, b1a, b2a, be, ch⟩ =
        download_and_extract p os arch isUnix ⟨ctd, dl, dg, cbd, ex, b1, b2, be, ch⟩ := by
  cases hpi : get_platform_info os arch with
  | error e => simp [download_and_extract, hpi] at h
  | ok info =>
    cases ctd with
    | error e => simp [download_and_extract, hpi] at h
    | ok u =>
      cases u
      cases dl with
      | error e => simp [download_and_extract, hpi] at h
      | ok u2 =>
        cases u2
        by_cases hs : p.skip_verify
        · simp only [download_and_extract, hpi, hs, if_true] at h
          have := extract_phase_cleanup_mem info isUnix
            ⟨Except.ok (), Except.ok (), dg, cbd, ex, b1, b2, be, ch⟩
            [Ev.download] (by decide) (by decide) h
          exact ⟨rfl, this.1, this.2, fun b1a b2a => rfl⟩
        · cases hv : verify_hash dg info.sha256 with
          | error e =>
            simp only [download_and_extract, hpi, hs, if_false, Bool.false_eq_true, hv] at h
            simp at h
          | ok u3 =>
            cases u3
            simp only [download_and_extract, hpi, hs, if_false, Bool.false_eq_true, hv] at h
            have := extract_phase_cleanup_mem info isUnix
              ⟨Except.ok (), Except.ok (), dg, cbd, ex, b1, b2, be, ch⟩
              [Ev.download, Ev.verifyHash] (by decide) (by decide) h
            exact ⟨rfl, this.1, this.2, fun b1a b2a => rfl⟩

/-- Witness for the amended C2 theorem on a fully successful run. -/
theorem c2_cleanup_witness :
    (Ev.removeTempFile ∈ (download_and_extract ⟨["d"], false⟩ OS.linux Arch.x86_64 true
        ⟨Except.ok (), Except.ok (),
         "4f0e4e23c864a72dcb20bf4661ea0d2719358c938ec342105a633cc732dc03c3",
         Except.ok (), Except.ok (), true, true, true, Except.ok ()⟩).2 ∨
     Ev.removeTempDir ∈ (download_and_extract ⟨["d"], false⟩ OS.linux Arch.x86_64 true
        ⟨Except.ok (), Except.ok (),
         "4f0e4e23c864a72dcb20bf4661ea0d2719358c938ec342105a633cc732dc03c3",
         Except.ok (), Except.ok (), true, true, true, Except.ok ()⟩).2) ∧
    (Except.ok () = (Except.ok () : Except String Unit) ∧
     Except.ok () = (Except.ok () : Except String Unit) ∧
     Except.ok () = (Except.ok () : Except String Unit) ∧
     ∀ (b1a b2a : Bool),
       download_and_extract ⟨["d"], false⟩ OS.linux Arch.x86_64 true
           ⟨Except.ok (), Except.ok (),
            "4f0e4e23c864a72dcb20bf4661ea0d2719358c938ec342105a633cc732dc03c3",
            Except.ok (), Except.ok (), b1a, b2a, true, Except.ok ()⟩ =
         download_and_extract ⟨["d"], false⟩ OS.linux Arch.x86_64 true
           ⟨Except.ok (), Except.ok (),
            "4f0e4e23c864a72dcb20bf4661ea0d2719358c938ec342105a633cc732dc03c3",
            Except.ok (), Except.ok (), true, true, true, Except.ok ()⟩) :=
  ⟨by decide,
   c2_cleanup_only_on_success ⟨["d"], false⟩ OS.linux Arch.x86_64 true
     (Except.ok ()) (Except.ok ())
     "4f0e4e23c864a72dcb20bf4661ea0d2719358c938ec342105a633cc732dc03c3"
     (Except.ok ()) (Except.ok ()) true true true (Except.ok ()) (by decide)⟩

/-- C3: on Unix, `is_provisioned` is true exactly when the install path
exists and its permission mode has at least one executable bit set (a file
with all executable bits cleared, or unreadable metadata, counts as not
provisioned); and when not provisioned, `ensure_provisioned` performs the
full download / verify / extract / cleanup sequence (no partial repair) and
returns the install path. -/
theorem c3_idempotency_check (dd : Path) (os : OS) (arch : Arch) (fs : FSView)
    (info : PlatformInfo) (hinfo : get_platform_info os arch = Except.ok info)
    (b1 b2 : Bool) :
    (OsqueryProvisioner.is_provisioned ⟨dd, false⟩ os true fs = true ↔
       (fs.pathExists (OsqueryProvisioner.osqueryd_path ⟨dd, false⟩ os) = true ∧
        ∃ m, fs.fileMode (OsqueryProvisioner.osqueryd_path ⟨dd, false⟩ os) = some m ∧
          m &&& 0o111 ≠ 0)) ∧
    (OsqueryProvisioner.is_provisioned ⟨dd, false⟩ os true fs = false →
       ensure_provisioned ⟨dd, false⟩ os arch true fs
           ⟨Except.ok (), Except.ok (), info.sha256, Except.ok (), Except.ok (),
            b1, b2, true, Except.ok ()⟩ =
         (Except.ok (OsqueryProvisioner.osqueryd_path ⟨dd, false⟩ os),
          [Ev.download, Ev.verifyHash, Ev.extract info.archive_type,
           Ev.removeTempFile, Ev.removeTempDir])) := by
  constructor
  · cases hex : fs.pathExists (OsqueryProvisioner.osqueryd_path ⟨dd, false⟩ os) with
    | false => simp [OsqueryProvisioner.is_provisioned, hex]
    | true =>
      cases hm : fs.fileMode (OsqueryProvisioner.osqueryd_path ⟨dd, false⟩ os) with
      | none => simp [OsqueryProvisioner.is_provisioned, hex, hm]
      | some m => simp [OsqueryProvisioner.is_provisioned, hex, hm]
  · intro hnp
    simp [ensure_provisioned, hnp, download_and_extract, hinfo, verify_hash,
      extract_phase]

/-- Witness for C3 on an empty filesystem: nothing is provisioned, so the
full pipeline runs and returns the install path. -/
theorem c3_idempotency_witness :
    get_platform_info OS.linux Arch.x86_64 =
      Except.ok ⟨"osquery-5.20.0_1.linux_x86_64.tar.gz",
        "4f0e4e23c864a72dcb20bf4661ea0d2719358c938ec342105a633cc732dc03c3",
        ArchiveType.TarGz, "opt/osquery/bin/osqueryd"⟩ ∧
    OsqueryProvisioner.is_provisioned ⟨["d"], false⟩ OS.linux true
      ⟨fun _ => false, fun _ => none⟩ = false ∧
    ensure_provisioned ⟨["d"], false⟩ OS.linux Arch.x86_64 true
        ⟨fun _ => false, fun _ => none⟩
        ⟨Except.ok (), Except.ok (),
         "4f0e4e23c864a72dcb20bf4661ea0d2719358c938ec342105a633cc732dc03c3",
         Except.ok (), Except.ok (), true, true, true, Except.ok ()⟩ =
      (Except.ok (["d", "bin", "osqueryd"]),
       [Ev.download, Ev.verifyHash, Ev.extract ArchiveType.TarGz,
        Ev.removeTempFile, Ev.removeTempDir]) :=
  ⟨rfl, by decide,
   (c3_idempotency_check ["d"] OS.linux Arch.x86_64 ⟨fun _ => false, fun _ => none⟩
       ⟨"osquery-5.20.0_1.linux_x86_64.tar.gz",
        "4f0e4e23c864a72dcb20bf4661ea0d2719358c938ec342105a633cc732dc03c3",
        ArchiveType.TarGz, "opt/osquery/bin/osqueryd"⟩ rfl true true).2 (by decide)⟩

/-- C4: when verification is not bypassed and the digest of the downloaded
file differs from the resolved expected value, the pipeline fails with an
error carrying both the expected and the actual digest, and no extraction
strategy is invoked in that run. -/
theorem c4_checksum_mismatch_blocks_extraction (dd : Path) (os : OS)
    (arch : Arch) (isUnix : Bool) (info : PlatformInfo)
    (hinfo : get_platform_info os arch = Except.ok info)
    (dg : String) (hne : dg ≠ info.sha256)
    (cbd ex : Except String Unit) (b1 b2 be : Bool) (ch : Except String Unit) :
    (download_and_extract ⟨dd, false⟩ os arch isUnix
        ⟨Except.ok (), Except.ok (), dg, cbd, ex, b1, b2, be, ch⟩).1 =
      Except.error ("Hash mismatch!\n  Expected: " ++ info.sha256 ++
        "\n  Got: " ++ dg) ∧
    ∀ t, Ev.extract t ∉ (download_and_extract ⟨dd, false⟩ os arch isUnix
        ⟨Except.ok (), Except.ok (), dg, cbd, ex, b1, b2, be, ch⟩).2 := by
  have hv : verify_hash dg info.sha256 =
      Except.error ("Hash mismatch!\n  Expected: " ++ info.sha256 ++
        "\n  Got: " ++ dg) := by
    simp [verify_hash, hne]
  constructor
  · simp [download_and_extract, hinfo, hv]
  · intro t; simp [download_and_extract, hinfo, hv]

/-- Witness for C4 at a concrete wrong digest. -/
theorem c4_checksum_witness :
    get_platform_info OS.linux Arch.x86_64 =
      Except.ok ⟨"osquery-5.20.0_1.linux_x86_64.tar.gz",
        "4f0e4e23c864a72dcb20bf4661ea0d2719358c938ec342105a633cc732dc03c3",
        ArchiveType.TarGz, "opt/osquery/bin/osqueryd"⟩ ∧
    "deadbeef" ≠ "4f0e4e23c864a72dcb20bf4661ea0d2719358c938ec342105a633cc732dc03c3" ∧
    ((download_and_extract ⟨["d"], false⟩ OS.linux Arch.x86_64 true
        ⟨Except.ok (), Except.ok (), "deadbeef", Except.ok (), Except.ok (),
         true, true, true, Except.ok ()⟩).1 =
      Except.error ("Hash mismatch!\n  Expected: " ++
        "4f0e4e23c864a72dcb20bf4661ea0d2719358c938ec342105a633cc732dc03c3" ++
        "\n  Got: " ++ "deadbeef") ∧
     ∀ t, Ev.extract t ∉ (download_and_extract ⟨["d"], false⟩ OS.linux Arch.x86_64 true
        ⟨Except.ok (), Except.ok (), "deadbeef", Except.ok (), Except.ok (),
         true, true, true, Except.ok ()⟩).2) :=
  ⟨rfl, by decide,
   c4_checksum_mismatch_blocks_extraction ["d"] OS.linux Arch.x86_64 true
     ⟨"osquery-5.20.0_1.linux_x86_64.tar.gz",
      "4f0e4e23c864a72dcb20bf4661ea0d2719358c938ec342105a633cc732dc03c3",
      ArchiveType.TarGz, "opt/osquery/bin/osqueryd"⟩ rfl "deadbeef" (by decide)
     (Except.ok ()) (Except.ok ()) true true true (Except.ok ())⟩

/-- C6: the enrollment exchange targets
`https://<server>/api/shadow/enroll` with a JSON body holding exactly the
keys `host_id` and `org_token`; a 2xx response yields exactly the
`enroll_secret` string of the body (e.g. "abc123"), and a non-2xx response
fails with a message carrying both the status and the body text (e.g. a 403
with body "invalid token"). -/
theorem c6_enrollment_exchange :
    (∀ server : String,
       enroll_url server = "https://" ++ server ++ "/api/shadow/enroll") ∧
    (∀ h o : String, (enroll_body h o).map Prod.fst = ["host_id", "org_token"]) ∧
    (∀ server h o : String,
       enroll_request server h o = (enroll_url server, enroll_body h o)) ∧
    enroll_response ⟨200, "\x7b\"enroll_secret\":\"abc123\"\x7d"⟩ =
      Except.ok "abc123" ∧
    (∀ (st : Nat) (body : String), statusIsSuccess st = false →
       enroll_response ⟨st, body⟩ =
         Except.error ("Enrollment failed (" ++ toString st ++ "): " ++ body)) ∧
    (∀ (st : Nat) (body s : String), statusIsSuccess st = true →
       parseEnrollSecret body = some s →
       enroll_response ⟨st, body⟩ = Except.ok s) ∧
    enroll_response ⟨403, "invalid token"⟩ =
      Except.error "Enrollment failed (403): invalid token" := by
  refine ⟨fun server => rfl, fun h o => rfl, fun server h o => rfl, by decide,
    ?_, ?_, by decide⟩
  · intro st body hst; simp [enroll_response, hst]
  · intro st body s hst hp; simp [enroll_response, hst, hp]

/-- Witness for C6 at the spec's 403 example. -/
theorem c6_enrollment_witness :
    statusIsSuccess 403 = false ∧
    enroll_response ⟨403, "invalid token"⟩ =
      Except.error ("Enrollment failed (" ++ toString 403 ++ "): " ++ "invalid token") :=
  ⟨by decide, c6_enrollment_exchange.2.2.2.2.1 403 "invalid token" (by decide)⟩

/-- C9: when the operator supplies an explicit osqueryd path, the
provisioning pipeline is never entered (the event trace is empty, so no
network or archive operation happens), and if the supplied path does not
exist the run fails with "osqueryd not found at <path>". -/
theorem c9_user_path_bypasses_provisioning (user : Path)
    (fsExists : Path → Bool) (p : OsqueryProvisioner) (os : OS) (arch : Arch)
    (isUnix : Bool) (fs : FSView) (env : RunEnv) :
    (resolve_osqueryd_path (some user) fsExists p os arch isUnix fs env).2 = [] ∧
    (fsExists user = false →
       (resolve_osqueryd_path (some user) fsExists p os arch isUnix fs env).1 =
         Except.error ("osqueryd not found at " ++ renderPath user)) := by
  constructor
  · by_cases h : fsExists user <;> simp [resolve_osqueryd_path, h]
  · intro h; simp [resolve_osqueryd_path, h]

/-- Witness for C9 at a concrete missing user-supplied path. -/
theorem c9_user_path_witness :
    ((fun _ => false : Path → Bool) ["x", "osqueryd"] = false) ∧
    (resolve_osqueryd_path (some ["x", "osqueryd"]) (fun _ => false) ⟨["d"], false⟩
        OS.linux Arch.x86_64 true ⟨fun _ => false, fun _ => none⟩
        ⟨Except.ok (), Except.ok (), "", Except.ok (), Except.ok (),
         true, true, true, Except.ok ()⟩).2 = [] ∧
    (resolve_osqueryd_path (some ["x", "osqueryd"]) (fun _ => false) ⟨["d"], false⟩
        OS.linux Arch.x86_64 true ⟨fun _ => false, fun _ => none⟩
        ⟨Except.ok (), Except.ok (), "", Except.ok (), Except.ok (),
         true, true, true, Except.ok ()⟩).1 =
      Except.error ("osqueryd not found at " ++ renderPath ["x", "osqueryd"]) :=
  ⟨rfl,
   (c9_user_path_bypasses_provisioning ["x", "osqueryd"] (fun _ => false)
       ⟨["d"], false⟩ OS.linux Arch.x86_64 true ⟨fun _ => false, fun _ => none⟩
       ⟨Except.ok (), Except.ok (), "", Except.ok (), Except.ok (),
        true, true, true, Except.ok ()⟩).1,
   (c9_user_path_bypasses_provisioning ["x", "osqueryd"] (fun _ => false)
       ⟨["d"], false⟩ OS.linux Arch.x86_64 true ⟨fun _ => false, fun _ => none⟩
       ⟨Except.ok (), Except.ok (), "", Except.ok (), Except.ok (),
        true, true, true, Except.ok ()⟩).2 rfl⟩

end Shadow
